import Mathlib

/-!
# i2s_mic_amp.c : ASoC machine driver for an opencores I2S CPU DAI

A shallow embedding of `oc_i2s_card_probe` and `oc_i2s_card_remove`
(src/i2s_mic_amp.c).  The kernel services the driver calls are external; their
outcomes are collected in `Env`, and every call is recorded, in program order,
in a trace of `Event`s.  Pointers are symbolic addresses: a `struct device_node *`
is `Option device_node` (`none` is NULL), and pointers into the machine record are
the constructors of `component_ptr`, `dai_link_ptr`, `mach_ptr`.
-/

namespace I2sMicAmp

/-- Identity of a device-tree node, the target of a `struct device_node *`. -/
abbrev device_node := Nat

/-- Constants the driver takes from the kernel headers (errno.h, sound/soc-dai.h).
The headers are not part of the repository, so the values are parameters; errno
codes are positive by type. -/
structure kernel_headers where
  ENOMEM : ℕ+
  EPROBE_DEFER : ℕ+
  SND_SOC_DAIFMT_I2S : Nat
  SND_SOC_DAIFMT_NB_NF : Nat
  SND_SOC_DAIFMT_CBC_CFC : Nat

/-- The fields of `struct snd_soc_dai_link_component` the driver writes. -/
structure snd_soc_dai_link_component where
  of_node : Option device_node
  dai_name : Option String
deriving DecidableEq

/-- Address of one of the four component members of `struct oc_i2s_mach`
(`&mach->cpu`, `&mach->codec_playback`, `&mach->codec_capture`, `&mach->platform`). -/
inductive component_ptr where
  | NULL
  | cpu
  | codec_playback
  | codec_capture
  | platform
deriving DecidableEq

/-- Value of a `struct snd_soc_dai_link *`: NULL or `mach->dai_links`. -/
inductive dai_link_ptr where
  | NULL
  | dai_links
deriving DecidableEq

/-- Value of a `struct device *`: NULL or `&pdev->dev`. -/
inductive device_ptr where
  | NULL
  | pdev_dev
deriving DecidableEq

/-- Value of a `struct module *`: NULL or `THIS_MODULE`. -/
inductive module_ptr where
  | NULL
  | THIS_MODULE
deriving DecidableEq

/-- Value of a `struct oc_i2s_mach *`: NULL or the record allocated by probe. -/
inductive mach_ptr where
  | NULL
  | mach
deriving DecidableEq

/-- The fields of `struct snd_soc_dai_link` the driver writes. -/
structure snd_soc_dai_link where
  name : Option String
  stream_name : Option String
  id : Int
  cpus : component_ptr
  num_cpus : Nat
  codecs : component_ptr
  num_codecs : Nat
  platforms : component_ptr
  num_platforms : Nat
  playback_only : Bool
  capture_only : Bool
  dai_fmt : Nat
deriving DecidableEq

/-- The fields of `struct snd_soc_card` the driver writes. -/
structure snd_soc_card where
  name : Option String
  dev : device_ptr
  owner : module_ptr
  dai_link : dai_link_ptr
  num_links : Nat
deriving DecidableEq

/-- The record `struct oc_i2s_mach`; `dai_links` is the two-element array. -/
structure oc_i2s_mach where
  card : snd_soc_card
  dai_links : List snd_soc_dai_link
  cpu : snd_soc_dai_link_component
  codec_playback : snd_soc_dai_link_component
  codec_capture : snd_soc_dai_link_component
  platform : snd_soc_dai_link_component
  dev : device_ptr
deriving DecidableEq

/-- An all-zero `struct snd_soc_dai_link_component`. -/
def zero_component : snd_soc_dai_link_component :=
  { of_node := none, dai_name := none }

/-- An all-zero `struct snd_soc_dai_link`. -/
def zero_dai_link : snd_soc_dai_link :=
  { name := none, stream_name := none, id := 0,
    cpus := component_ptr.NULL, num_cpus := 0,
    codecs := component_ptr.NULL, num_codecs := 0,
    platforms := component_ptr.NULL, num_platforms := 0,
    playback_only := false, capture_only := false, dai_fmt := 0 }

/-- The zero-filled record a successful `devm_kzalloc(.., sizeof(*mach), ..)` yields. -/
def kzalloc_mach : oc_i2s_mach :=
  { card := { name := none, dev := device_ptr.NULL, owner := module_ptr.NULL,
              dai_link := dai_link_ptr.NULL, num_links := 0 },
    dai_links := [zero_dai_link, zero_dai_link],
    cpu := zero_component,
    codec_playback := zero_component,
    codec_capture := zero_component,
    platform := zero_component,
    dev := device_ptr.NULL }

/-- Dereference of a component pointer inside a machine record. -/
def oc_i2s_mach.component (m : oc_i2s_mach) : component_ptr → Option snd_soc_dai_link_component
  | component_ptr.NULL => none
  | component_ptr.cpu => some m.cpu
  | component_ptr.codec_playback => some m.codec_playback
  | component_ptr.codec_capture => some m.codec_capture
  | component_ptr.platform => some m.platform

/-- Dereference of a link-array pointer inside a machine record. -/
def oc_i2s_mach.links (m : oc_i2s_mach) : dai_link_ptr → List snd_soc_dai_link
  | dai_link_ptr.NULL => []
  | dai_link_ptr.dai_links => m.dai_links

/-- The block of assignments `links[i].f = v; ...` to element `i` of the array. -/
def assign_link (ls : List snd_soc_dai_link) (i : Nat)
    (f : snd_soc_dai_link → snd_soc_dai_link) : List snd_soc_dai_link :=
  match ls[i]? with
  | some l => ls.set i (f l)
  | none => ls

/-- The probed platform device: `pdev->dev.of_node`. -/
structure platform_device where
  of_node : Option device_node
deriving DecidableEq

/-- Calls into the kernel, with their arguments and results, as the driver makes them. -/
inductive Event where
  | devm_kzalloc (ok : Bool)
  | of_property_read_string (np : Option device_node) (propname : String) (ret : Int)
  | of_parse_phandle (np : Option device_node) (propname : String) (index : Nat)
      (result : Option device_node)
  | dev_err (fmt : String) (args : List Int)
  | dev_info (fmt : String)
  | platform_set_drvdata (data : mach_ptr)
  | devm_snd_soc_register_card (drvdata : mach_ptr) (mach : oc_i2s_mach) (ret : Int)
  | of_node_put (node : Option device_node)
deriving DecidableEq

/-- Outcomes of the kernel services used by probe.
* `devm_kzalloc`: whether the allocation succeeds;
* `of_property_read_string np name`: the return value and the string stored through
  the out-pointer, if one is stored;
* `of_parse_phandle np name index`: the node found (with a reference taken) or NULL;
* `devm_snd_soc_register_card`: the return value, which may depend on the record. -/
structure Env where
  devm_kzalloc : Bool
  of_property_read_string : Option device_node → String → Int × Option String
  of_parse_phandle : Option device_node → String → Nat → Option device_node
  devm_snd_soc_register_card : oc_i2s_mach → Int

/-- State the driver acts on: the record allocated by probe (if any), the driver-data
slot of `pdev->dev`, and the calls made so far. -/
structure World where
  mach : Option oc_i2s_mach
  drvdata : mach_ptr
  trace : List Event
deriving DecidableEq

/-- Fall-through label `err_put_cpu:` of probe. -/
def err_put_cpu (mach : oc_i2s_mach) (t : List Event) : List Event :=
  t ++ [Event.of_node_put mach.cpu.of_node]

/-- Fall-through label `err_put_codec_playback:` of probe. -/
def err_put_codec_playback (mach : oc_i2s_mach) (t : List Event) : List Event :=
  err_put_cpu mach (t ++ [Event.of_node_put mach.codec_playback.of_node])

/-- Fall-through label `err_put_codec_capture:` of probe. -/
def err_put_codec_capture (mach : oc_i2s_mach) (t : List Event) : List Event :=
  err_put_codec_playback mach (t ++ [Event.of_node_put mach.codec_capture.of_node])

/-- Lines 42-50 of probe, on the freshly allocated record: `mach->dev`,
`mach->card.dev`, `mach->card.owner`, then the card name.  The call
`of_property_read_string(np, "model", &mach->card.name)` stores a string through
the out-pointer when it has one; a non-zero return makes the driver overwrite the
name with the default. -/
def card_setup (env : Env) (np : Option device_node) (mach : oc_i2s_mach) : oc_i2s_mach :=
  let mach := { mach with dev := device_ptr.pdev_dev }
  let mach := { mach with card := { mach.card with dev := device_ptr.pdev_dev } }
  let mach := { mach with card := { mach.card with owner := module_ptr.THIS_MODULE } }
  let rs := env.of_property_read_string np "model"
  let mach := { mach with card := { mach.card with name := rs.2.orElse (fun _ => mach.card.name) } }
  if rs.1 = 0 then
    mach
  else
    { mach with card := { mach.card with name := some "opencores-i2s-card" } }

/-- Lines 76-117 of probe: the platform component, the two link descriptors and
the card's link table. -/
def links_setup (K : kernel_headers) (mach : oc_i2s_mach) : oc_i2s_mach :=
  -- platform: use cpu node for platform too
  let mach := { mach with platform := { mach.platform with of_node := mach.cpu.of_node } }
  let mach := { mach with platform := { mach.platform with dai_name := some "opencores-i2s" } }
  -- links = mach->dai_links;
  let links := dai_link_ptr.dai_links
  -- Playback link (link 0)
  let mach := { mach with dai_links := assign_link mach.dai_links 0 (fun l =>
    { l with
      name := some "I2S-Playback"
      stream_name := some "Playback"
      id := 0
      cpus := component_ptr.cpu
      num_cpus := 1
      codecs := component_ptr.codec_playback
      num_codecs := 1
      platforms := component_ptr.platform
      num_platforms := 1
      playback_only := true
      capture_only := false
      dai_fmt := K.SND_SOC_DAIFMT_I2S ||| K.SND_SOC_DAIFMT_NB_NF |||
                 K.SND_SOC_DAIFMT_CBC_CFC }) }
  -- Capture link (link 1)
  let mach := { mach with dai_links := assign_link mach.dai_links 1 (fun l =>
    { l with
      name := some "I2S-Capture"
      stream_name := some "Capture"
      id := 1
      cpus := component_ptr.cpu
      num_cpus := 1
      codecs := component_ptr.codec_capture
      num_codecs := 1
      platforms := component_ptr.platform
      num_platforms := 1
      playback_only := false
      capture_only := true
      dai_fmt := K.SND_SOC_DAIFMT_I2S ||| K.SND_SOC_DAIFMT_NB_NF |||
                 K.SND_SOC_DAIFMT_CBC_CFC }) }
  let mach := { mach with card := { mach.card with dai_link := links } }
  -- mach->card.num_links = ARRAY_SIZE(mach->dai_links);
  { mach with card := { mach.card with num_links := mach.dai_links.length } }

/-- The function `oc_i2s_card_probe`: returns the `int` result and the final state.
Probe starts on a device whose driver data is NULL and with an empty trace. -/
def oc_i2s_card_probe (K : kernel_headers) (env : Env) (pdev : platform_device) : Int × World :=
  let np := pdev.of_node
  -- mach = devm_kzalloc(&pdev->dev, sizeof(*mach), GFP_KERNEL);
  let t : List Event := [Event.devm_kzalloc env.devm_kzalloc]
  if env.devm_kzalloc = false then
    (-((K.ENOMEM : Nat) : Int), { mach := none, drvdata := mach_ptr.NULL, trace := t })
  else
  let mach : oc_i2s_mach := kzalloc_mach
  -- mach->dev, mach->card.dev, mach->card.owner, card name
  let t := t ++ [Event.of_property_read_string np "model" (env.of_property_read_string np "model").1]
  let mach := card_setup env np mach
  -- mach->cpu.of_node = of_parse_phandle(np, "cpu-dai", 0);
  let r := env.of_parse_phandle np "cpu-dai" 0
  let t := t ++ [Event.of_parse_phandle np "cpu-dai" 0 r]
  let mach := { mach with cpu := { mach.cpu with of_node := r } }
  if mach.cpu.of_node = none then
    let t := t ++ [Event.dev_err "Missing cpu-dai phandle\n" []]
    (-((K.EPROBE_DEFER : Nat) : Int), { mach := some mach, drvdata := mach_ptr.NULL, trace := t })
  else
  let mach := { mach with cpu := { mach.cpu with dai_name := some "opencores-i2s" } }
  -- mach->codec_playback.of_node = of_parse_phandle(np, "playback-codec", 0);
  let r := env.of_parse_phandle np "playback-codec" 0
  let t := t ++ [Event.of_parse_phandle np "playback-codec" 0 r]
  let mach := { mach with codec_playback := { mach.codec_playback with of_node := r } }
  if mach.codec_playback.of_node = none then
    let t := t ++ [Event.dev_err "Missing playback-codec phandle\n" []]
    let ret := -((K.EPROBE_DEFER : Nat) : Int)
    (ret, { mach := some mach, drvdata := mach_ptr.NULL, trace := err_put_cpu mach t })
  else
  let mach := { mach with codec_playback := { mach.codec_playback with dai_name := some "HiFi" } }
  -- mach->codec_capture.of_node = of_parse_phandle(np, "capture-codec", 0);
  let r := env.of_parse_phandle np "capture-codec" 0
  let t := t ++ [Event.of_parse_phandle np "capture-codec" 0 r]
  let mach := { mach with codec_capture := { mach.codec_capture with of_node := r } }
  if mach.codec_capture.of_node = none then
    let t := t ++ [Event.dev_err "Missing capture-codec phandle\n" []]
    let ret := -((K.EPROBE_DEFER : Nat) : Int)
    (ret, { mach := some mach, drvdata := mach_ptr.NULL,
            trace := err_put_codec_playback mach t })
  else
  let mach := { mach with
    codec_capture := { mach.codec_capture with dai_name := some "ics43432-hifi" } }
  -- platform component, dai links array, card link table
  let mach := links_setup K mach
  -- platform_set_drvdata(pdev, mach);
  let drvdata := mach_ptr.mach
  let t := t ++ [Event.platform_set_drvdata mach_ptr.mach]
  -- ret = devm_snd_soc_register_card(&pdev->dev, &mach->card);
  let ret := env.devm_snd_soc_register_card mach
  let t := t ++ [Event.devm_snd_soc_register_card drvdata mach ret]
  if ret ≠ 0 then
    let t := t ++ [Event.dev_err "devm_snd_soc_register_card failed: %d\n" [ret]]
    (ret, { mach := some mach, drvdata := drvdata, trace := err_put_codec_capture mach t })
  else
  let t := t ++ [Event.dev_info "opencores-i2s machine registered\n"]
  (0, { mach := some mach, drvdata := drvdata, trace := t })

/-- The call `platform_get_drvdata(pdev)` followed by access through the pointer:
the record the driver data points at, `none` when the driver data is NULL. -/
def platform_get_drvdata (w : World) : Option oc_i2s_mach :=
  match w.drvdata with
  | mach_ptr.NULL => none
  | mach_ptr.mach => w.mach

/-- The function `oc_i2s_card_remove`. -/
def oc_i2s_card_remove (w : World) : World :=
  match platform_get_drvdata w with
  | none => w
  | some mach =>
    let t := w.trace
    let t := t ++ [Event.of_node_put mach.cpu.of_node]
    let t := t ++ [Event.of_node_put mach.codec_playback.of_node]
    let t := t ++ [Event.of_node_put mach.codec_capture.of_node]
    { w with trace := t }

/-- Whether event `e` takes a reference on node `n`: a phandle lookup that found `n`. -/
def Event.acquires (n : device_node) : Event → Bool
  | Event.of_parse_phandle _ _ _ (some m) => m == n
  | _ => false

/-- Whether event `e` drops a reference on node `n`: `of_node_put` on `n`. -/
def Event.releases (n : device_node) : Event → Bool
  | Event.of_node_put (some m) => m == n
  | _ => false

/-- Whether event `e` is a call of `of_node_put` (on any argument, NULL included). -/
def Event.is_put : Event → Bool
  | Event.of_node_put _ => true
  | _ => false

/-- Whether event `e` is a call of `devm_snd_soc_register_card`. -/
def Event.is_register : Event → Bool
  | Event.devm_snd_soc_register_card _ _ _ => true
  | _ => false

/-- Whether event `e` is a call of `platform_set_drvdata`. -/
def Event.is_set_drvdata : Event → Bool
  | Event.platform_set_drvdata _ => true
  | _ => false

/-- Number of references taken on node `n` in a trace. -/
def acquired (n : device_node) (t : List Event) : Nat :=
  t.countP (Event.acquires n)

/-- Number of references dropped on node `n` in a trace. -/
def released (n : device_node) (t : List Event) : Nat :=
  t.countP (Event.releases n)

/-- The arguments of the `of_node_put` calls of a trace, in order. -/
def puts (t : List Event) : List (Option device_node) :=
  t.filterMap (fun e => match e with
    | Event.of_node_put p => some p
    | _ => none)

/-- The nodes found by the phandle lookups of a trace, in order. -/
def gets (t : List Event) : List device_node :=
  t.filterMap (fun e => match e with
    | Event.of_parse_phandle _ _ _ (some m) => some m
    | _ => none)

/-- Kernel header values of a current Linux tree, used for concrete runs. -/
def linux_headers : kernel_headers :=
  { ENOMEM := 12, EPROBE_DEFER := 517,
    SND_SOC_DAIFMT_I2S := 1, SND_SOC_DAIFMT_NB_NF := 0, SND_SOC_DAIFMT_CBC_CFC := 16384 }

/-- A device tree of the documented shape: node 10 is the sound node, with
`cpu-dai` = node 1, `playback-codec` = node 2, `capture-codec` = node 3. -/
def sample_phandle (np : Option device_node) (propname : String) (index : Nat) :
    Option device_node :=
  if np = some 10 ∧ index = 0 then
    if propname = "cpu-dai" then some 1
    else if propname = "playback-codec" then some 2
    else if propname = "capture-codec" then some 3
    else none
  else none

/-- The sound node of `sample_phandle`. -/
def sample_pdev : platform_device := { of_node := some 10 }

/-- An environment in which everything succeeds and no `model` property exists
(`of_property_read_string` returns -EINVAL = -22). -/
def env_ok : Env :=
  { devm_kzalloc := true,
    of_property_read_string := fun _ _ => (-22, none),
    of_parse_phandle := sample_phandle,
    devm_snd_soc_register_card := fun _ => 0 }

/-- As `env_ok`, but card registration fails with -EINVAL = -22. -/
def env_register_fails : Env :=
  { env_ok with devm_snd_soc_register_card := fun _ => -22 }

/-- As `env_ok`, but the `capture-codec` phandle does not resolve. -/
def env_no_capture : Env :=
  { env_ok with
    of_parse_phandle := fun np propname index =>
      if propname = "capture-codec" then none else sample_phandle np propname index }

/-- Whether the component a link points at is filled in: the pointer is not NULL and
the component has a node and a DAI name. -/
def component_set (m : oc_i2s_mach) (ptr : component_ptr) : Bool :=
  match m.component ptr with
  | some x => x.of_node.isSome && x.dai_name.isSome
  | none => false

/-- Whether a link descriptor of record `m` is fully populated: names set, one CPU,
one codec and one platform, each filled in, and exactly one direction flag. -/
def link_populated (m : oc_i2s_mach) (l : snd_soc_dai_link) : Bool :=
  l.name.isSome && l.stream_name.isSome &&
  component_set m l.cpus && l.num_cpus == 1 &&
  component_set m l.codecs && l.num_codecs == 1 &&
  component_set m l.platforms && l.num_platforms == 1 &&
  (l.playback_only != l.capture_only)

/-- The record probe has built when it calls `devm_snd_soc_register_card`, given the
three nodes found: the composition of the assignments of lines 42-117. -/
def built_mach (K : kernel_headers) (env : Env) (np : Option device_node)
    (c p q : device_node) : oc_i2s_mach :=
  links_setup K
    { card_setup env np kzalloc_mach with
      cpu := { of_node := some c, dai_name := some "opencores-i2s" }
      codec_playback := { of_node := some p, dai_name := some "HiFi" }
      codec_capture := { of_node := some q, dai_name := some "ics43432-hifi" } }

/-- The calls probe makes up to and including registration, when all lookups succeed. -/
def trace_to_register (K : kernel_headers) (env : Env) (np : Option device_node)
    (c p q : device_node) : List Event :=
  [Event.devm_kzalloc true,
   Event.of_property_read_string np "model" (env.of_property_read_string np "model").1,
   Event.of_parse_phandle np "cpu-dai" 0 (some c),
   Event.of_parse_phandle np "playback-codec" 0 (some p),
   Event.of_parse_phandle np "capture-codec" 0 (some q),
   Event.platform_set_drvdata mach_ptr.mach,
   Event.devm_snd_soc_register_card mach_ptr.mach (built_mach K env np c p q)
     (env.devm_snd_soc_register_card (built_mach K env np c p q))]

/-! ## Path lemmas -/

theorem errno_ne_zero (n : ℕ+) : -((n : Nat) : Int) ≠ 0 := by
  have h := n.pos
  omega

theorem card_setup_eq (env : Env) (np : Option device_node) :
    card_setup env np kzalloc_mach =
      { card :=
          { name := (if (env.of_property_read_string np "model").1 = 0
                      then (env.of_property_read_string np "model").2
                      else some "opencores-i2s-card"),
            dev := device_ptr.pdev_dev,
            owner := module_ptr.THIS_MODULE,
            dai_link := dai_link_ptr.NULL,
            num_links := 0 },
        dai_links := [zero_dai_link, zero_dai_link],
        cpu := zero_component,
        codec_playback := zero_component,
        codec_capture := zero_component,
        platform := zero_component,
        dev := device_ptr.pdev_dev } := by
  unfold card_setup
  by_cases h : (env.of_property_read_string np "model").1 = 0
  · cases h2 : (env.of_property_read_string np "model").2 <;>
      simp [h, h2, kzalloc_mach, Option.orElse]
  · simp [h, kzalloc_mach]

theorem built_mach_eq (K : kernel_headers) (env : Env) (np : Option device_node)
    (c p q : device_node) :
    built_mach K env np c p q =
      { card :=
          { name := (if (env.of_property_read_string np "model").1 = 0
                      then (env.of_property_read_string np "model").2
                      else some "opencores-i2s-card"),
            dev := device_ptr.pdev_dev,
            owner := module_ptr.THIS_MODULE,
            dai_link := dai_link_ptr.dai_links,
            num_links := 2 },
        dai_links :=
          [ { name := some "I2S-Playback", stream_name := some "Playback", id := 0,
              cpus := component_ptr.cpu, num_cpus := 1,
              codecs := component_ptr.codec_playback, num_codecs := 1,
              platforms := component_ptr.platform, num_platforms := 1,
              playback_only := true, capture_only := false,
              dai_fmt := K.SND_SOC_DAIFMT_I2S ||| K.SND_SOC_DAIFMT_NB_NF |||
                         K.SND_SOC_DAIFMT_CBC_CFC },
            { name := some "I2S-Capture", stream_name := some "Capture", id := 1,
              cpus := component_ptr.cpu, num_cpus := 1,
              codecs := component_ptr.codec_capture, num_codecs := 1,
              platforms := component_ptr.platform, num_platforms := 1,
              playback_only := false, capture_only := true,
              dai_fmt := K.SND_SOC_DAIFMT_I2S ||| K.SND_SOC_DAIFMT_NB_NF |||
                         K.SND_SOC_DAIFMT_CBC_CFC } ],
        cpu := { of_node := some c, dai_name := some "opencores-i2s" },
        codec_playback := { of_node := some p, dai_name := some "HiFi" },
        codec_capture := { of_node := some q, dai_name := some "ics43432-hifi" },
        platform := { of_node := some c, dai_name := some "opencores-i2s" },
        dev := device_ptr.pdev_dev } := by
  simp [built_mach, card_setup_eq, links_setup, assign_link, zero_dai_link]

theorem probe_alloc_fails (K : kernel_headers) (env : Env) (pdev : platform_device)
    (ha : env.devm_kzalloc = false) :
    oc_i2s_card_probe K env pdev =
      (-((K.ENOMEM : Nat) : Int),
        { mach := none, drvdata := mach_ptr.NULL, trace := [Event.devm_kzalloc false] }) := by
  simp [oc_i2s_card_probe, ha]

theorem probe_no_cpu (K : kernel_headers) (env : Env) (pdev : platform_device)
    (ha : env.devm_kzalloc = true)
    (hc : env.of_parse_phandle pdev.of_node "cpu-dai" 0 = none) :
    oc_i2s_card_probe K env pdev =
      (-((K.EPROBE_DEFER : Nat) : Int),
        { mach := some { card_setup env pdev.of_node kzalloc_mach with
                         cpu := { of_node := none, dai_name := none } },
          drvdata := mach_ptr.NULL,
          trace :=
            [Event.devm_kzalloc true,
             Event.of_property_read_string pdev.of_node "model"
               (env.of_property_read_string pdev.of_node "model").1,
             Event.of_parse_phandle pdev.of_node "cpu-dai" 0 none,
             Event.dev_err "Missing cpu-dai phandle\n" []] }) := by
  simp [oc_i2s_card_probe, ha, hc, card_setup_eq, zero_component]

theorem probe_no_playback (K : kernel_headers) (env : Env) (pdev : platform_device)
    (c : device_node) (ha : env.devm_kzalloc = true)
    (hc : env.of_parse_phandle pdev.of_node "cpu-dai" 0 = some c)
    (hp : env.of_parse_phandle pdev.of_node "playback-codec" 0 = none) :
    oc_i2s_card_probe K env pdev =
      (-((K.EPROBE_DEFER : Nat) : Int),
        { mach := some { card_setup env pdev.of_node kzalloc_mach with
                         cpu := { of_node := some c, dai_name := some "opencores-i2s" }
                         codec_playback := { of_node := none, dai_name := none } },
          drvdata := mach_ptr.NULL,
          trace :=
            [Event.devm_kzalloc true,
             Event.of_property_read_string pdev.of_node "model"
               (env.of_property_read_string pdev.of_node "model").1,
             Event.of_parse_phandle pdev.of_node "cpu-dai" 0 (some c),
             Event.of_parse_phandle pdev.of_node "playback-codec" 0 none,
             Event.dev_err "Missing playback-codec phandle\n" [],
             Event.of_node_put (some c)] }) := by
  simp [oc_i2s_card_probe, ha, hc, hp, card_setup_eq, zero_component, err_put_cpu]

theorem probe_no_capture (K : kernel_headers) (env : Env) (pdev : platform_device)
    (c p : device_node) (ha : env.devm_kzalloc = true)
    (hc : env.of_parse_phandle pdev.of_node "cpu-dai" 0 = some c)
    (hp : env.of_parse_phandle pdev.of_node "playback-codec" 0 = some p)
    (hq : env.of_parse_phandle pdev.of_node "capture-codec" 0 = none) :
    oc_i2s_card_probe K env pdev =
      (-((K.EPROBE_DEFER : Nat) : Int),
        { mach := some { card_setup env pdev.of_node kzalloc_mach with
                         cpu := { of_node := some c, dai_name := some "opencores-i2s" }
                         codec_playback := { of_node := some p, dai_name := some "HiFi" }
                         codec_capture := { of_node := none, dai_name := none } },
          drvdata := mach_ptr.NULL,
          trace :=
            [Event.devm_kzalloc true,
             Event.of_property_read_string pdev.of_node "model"
               (env.of_property_read_string pdev.of_node "model").1,
             Event.of_parse_phandle pdev.of_node "cpu-dai" 0 (some c),
             Event.of_parse_phandle pdev.of_node "playback-codec" 0 (some p),
             Event.of_parse_phandle pdev.of_node "capture-codec" 0 none,
             Event.dev_err "Missing capture-codec phandle\n" [],
             Event.of_node_put (some p),
             Event.of_node_put (some c)] }) := by
  simp [oc_i2s_card_probe, ha, hc, hp, hq, card_setup_eq, zero_component, err_put_cpu,
    err_put_codec_playback]

theorem probe_register_fails (K : kernel_headers) (env : Env) (pdev : platform_device)
    (c p q : device_node) (ha : env.devm_kzalloc = true)
    (hc : env.of_parse_phandle pdev.of_node "cpu-dai" 0 = some c)
    (hp : env.of_parse_phandle pdev.of_node "playback-codec" 0 = some p)
    (hq : env.of_parse_phandle pdev.of_node "capture-codec" 0 = some q)
    (hr : env.devm_snd_soc_register_card (built_mach K env pdev.of_node c p q) ≠ 0) :
    oc_i2s_card_probe K env pdev =
      (env.devm_snd_soc_register_card (built_mach K env pdev.of_node c p q),
        { mach := some (built_mach K env pdev.of_node c p q),
          drvdata := mach_ptr.mach,
          trace := trace_to_register K env pdev.of_node c p q ++
            [Event.dev_err "devm_snd_soc_register_card failed: %d\n"
               [env.devm_snd_soc_register_card (built_mach K env pdev.of_node c p q)],
             Event.of_node_put (some q),
             Event.of_node_put (some p),
             Event.of_node_put (some c)] }) := by
  have hb : links_setup K
      { card_setup env pdev.of_node kzalloc_mach with
        cpu := { of_node := some c, dai_name := some "opencores-i2s" }
        codec_playback := { of_node := some p, dai_name := some "HiFi" }
        codec_capture := { of_node := some q, dai_name := some "ics43432-hifi" } }
      = built_mach K env pdev.of_node c p q := rfl
  simp only [oc_i2s_card_probe, ha, hc, hp, hq]
  simp [hb, hr, trace_to_register, err_put_cpu, err_put_codec_playback, err_put_codec_capture]
  simp [built_mach_eq]

theorem probe_registered (K : kernel_headers) (env : Env) (pdev : platform_device)
    (c p q : device_node) (ha : env.devm_kzalloc = true)
    (hc : env.of_parse_phandle pdev.of_node "cpu-dai" 0 = some c)
    (hp : env.of_parse_phandle pdev.of_node "playback-codec" 0 = some p)
    (hq : env.of_parse_phandle pdev.of_node "capture-codec" 0 = some q)
    (hr : env.devm_snd_soc_register_card (built_mach K env pdev.of_node c p q) = 0) :
    oc_i2s_card_probe K env pdev =
      (0,
        { mach := some (built_mach K env pdev.of_node c p q),
          drvdata := mach_ptr.mach,
          trace := trace_to_register K env pdev.of_node c p q ++
            [Event.dev_info "opencores-i2s machine registered\n"] }) := by
  have hb : links_setup K
      { card_setup env pdev.of_node kzalloc_mach with
        cpu := { of_node := some c, dai_name := some "opencores-i2s" }
        codec_playback := { of_node := some p, dai_name := some "HiFi" }
        codec_capture := { of_node := some q, dai_name := some "ics43432-hifi" } }
      = built_mach K env pdev.of_node c p q := rfl
  simp only [oc_i2s_card_probe, ha, hc, hp, hq]
  simp [hb, hr, trace_to_register]

/-- The five paths through probe, by the outcomes of the kernel services. -/
theorem probe_cases (K : kernel_headers) (env : Env) (pdev : platform_device) :
    (env.devm_kzalloc = false ∧
      oc_i2s_card_probe K env pdev =
        (-((K.ENOMEM : Nat) : Int),
          { mach := none, drvdata := mach_ptr.NULL, trace := [Event.devm_kzalloc false] })) ∨
    (env.devm_kzalloc = true ∧ env.of_parse_phandle pdev.of_node "cpu-dai" 0 = none ∧
      oc_i2s_card_probe K env pdev =
        (-((K.EPROBE_DEFER : Nat) : Int),
          { mach := some { card_setup env pdev.of_node kzalloc_mach with
                           cpu := { of_node := none, dai_name := none } },
            drvdata := mach_ptr.NULL,
            trace :=
              [Event.devm_kzalloc true,
               Event.of_property_read_string pdev.of_node "model"
                 (env.of_property_read_string pdev.of_node "model").1,
               Event.of_parse_phandle pdev.of_node "cpu-dai" 0 none,
               Event.dev_err "Missing cpu-dai phandle\n" []] })) ∨
    (∃ c, env.devm_kzalloc = true ∧ env.of_parse_phandle pdev.of_node "cpu-dai" 0 = some c ∧
      env.of_parse_phandle pdev.of_node "playback-codec" 0 = none ∧
      oc_i2s_card_probe K env pdev =
        (-((K.EPROBE_DEFER : Nat) : Int),
          { mach := some { card_setup env pdev.of_node kzalloc_mach with
                           cpu := { of_node := some c, dai_name := some "opencores-i2s" }
                           codec_playback := { of_node := none, dai_name := none } },
            drvdata := mach_ptr.NULL,
            trace :=
              [Event.devm_kzalloc true,
               Event.of_property_read_string pdev.of_node "model"
                 (env.of_property_read_string pdev.of_node "model").1,
               Event.of_parse_phandle pdev.of_node "cpu-dai" 0 (some c),
               Event.of_parse_phandle pdev.of_node "playback-codec" 0 none,
               Event.dev_err "Missing playback-codec phandle\n" [],
               Event.of_node_put (some c)] })) ∨
    (∃ c p, env.devm_kzalloc = true ∧
      env.of_parse_phandle pdev.of_node "cpu-dai" 0 = some c ∧
      env.of_parse_phandle pdev.of_node "playback-codec" 0 = some p ∧
      env.of_parse_phandle pdev.of_node "capture-codec" 0 = none ∧
      oc_i2s_card_probe K env pdev =
        (-((K.EPROBE_DEFER : Nat) : Int),
          { mach := some { card_setup env pdev.of_node kzalloc_mach with
                           cpu := { of_node := some c, dai_name := some "opencores-i2s" }
                           codec_playback := { of_node := some p, dai_name := some "HiFi" }
                           codec_capture := { of_node := none, dai_name := none } },
            drvdata := mach_ptr.NULL,
            trace :=
              [Event.devm_kzalloc true,
               Event.of_property_read_string pdev.of_node "model"
                 (env.of_property_read_string pdev.of_node "model").1,
               Event.of_parse_phandle pdev.of_node "cpu-dai" 0 (some c),
               Event.of_parse_phandle pdev.of_node "playback-codec" 0 (some p),
               Event.of_parse_phandle pdev.of_node "capture-codec" 0 none,
               Event.dev_err "Missing capture-codec phandle\n" [],
               Event.of_node_put (some p),
               Event.of_node_put (some c)] })) ∨
    (∃ c p q, env.devm_kzalloc = true ∧
      env.of_parse_phandle pdev.of_node "cpu-dai" 0 = some c ∧
      env.of_parse_phandle pdev.of_node "playback-codec" 0 = some p ∧
      env.of_parse_phandle pdev.of_node "capture-codec" 0 = some q ∧
      env.devm_snd_soc_register_card (built_mach K env pdev.of_node c p q) ≠ 0 ∧
      oc_i2s_card_probe K env pdev =
        (env.devm_snd_soc_register_card (built_mach K env pdev.of_node c p q),
          { mach := some (built_mach K env pdev.of_node c p q),
            drvdata := mach_ptr.mach,
            trace := trace_to_register K env pdev.of_node c p q ++
              [Event.dev_err "devm_snd_soc_register_card failed: %d\n"
                 [env.devm_snd_soc_register_card (built_mach K env pdev.of_node c p q)],
               Event.of_node_put (some q),
               Event.of_node_put (some p),
               Event.of_node_put (some c)] })) ∨
    (∃ c p q, env.devm_kzalloc = true ∧
      env.of_parse_phandle pdev.of_node "cpu-dai" 0 = some c ∧
      env.of_parse_phandle pdev.of_node "playback-codec" 0 = some p ∧
      env.of_parse_phandle pdev.of_node "capture-codec" 0 = some q ∧
      env.devm_snd_soc_register_card (built_mach K env pdev.of_node c p q) = 0 ∧
      oc_i2s_card_probe K env pdev =
        (0,
          { mach := some (built_mach K env pdev.of_node c p q),
            drvdata := mach_ptr.mach,
            trace := trace_to_register K env pdev.of_node c p q ++
              [Event.dev_info "opencores-i2s machine registered\n"] })) := by
  rcases ha : env.devm_kzalloc with _ | _
  · exact Or.inl ⟨rfl, probe_alloc_fails K env pdev ha⟩
  rcases hc : env.of_parse_phandle pdev.of_node "cpu-dai" 0 with _ | c
  · exact Or.inr (Or.inl ⟨rfl, rfl, probe_no_cpu K env pdev ha hc⟩)
  rcases hp : env.of_parse_phandle pdev.of_node "playback-codec" 0 with _ | p
  · exact Or.inr (Or.inr (Or.inl ⟨c, rfl, rfl, rfl, probe_no_playback K env pdev c ha hc hp⟩))
  rcases hq : env.of_parse_phandle pdev.of_node "capture-codec" 0 with _ | q
  · exact Or.inr (Or.inr (Or.inr (Or.inl
      ⟨c, p, rfl, rfl, rfl, rfl, probe_no_capture K env pdev c p ha hc hp hq⟩)))
  by_cases hr : env.devm_snd_soc_register_card (built_mach K env pdev.of_node c p q) = 0
  · exact Or.inr (Or.inr (Or.inr (Or.inr (Or.inr
      ⟨c, p, q, rfl, rfl, rfl, rfl, hr, probe_registered K env pdev c p q ha hc hp hq hr⟩))))
  · exact Or.inr (Or.inr (Or.inr (Or.inr (Or.inl
      ⟨c, p, q, rfl, rfl, rfl, rfl, hr, probe_register_fails K env pdev c p q ha hc hp hq hr⟩))))

/-- Whenever the trace of probe holds a registration call, the allocation succeeded,
the three lookups found nodes, and the call was made on the fully built record with
the driver data set. -/
theorem probe_register_event (K : kernel_headers) (env : Env) (pdev : platform_device)
    (dd : mach_ptr) (m : oc_i2s_mach) (r : Int)
    (h : Event.devm_snd_soc_register_card dd m r ∈ (oc_i2s_card_probe K env pdev).2.trace) :
    ∃ c p q, env.devm_kzalloc = true ∧
      env.of_parse_phandle pdev.of_node "cpu-dai" 0 = some c ∧
      env.of_parse_phandle pdev.of_node "playback-codec" 0 = some p ∧
      env.of_parse_phandle pdev.of_node "capture-codec" 0 = some q ∧
      dd = mach_ptr.mach ∧ m = built_mach K env pdev.of_node c p q ∧
      r = env.devm_snd_soc_register_card m ∧
      (oc_i2s_card_probe K env pdev).2.mach = some m ∧
      (oc_i2s_card_probe K env pdev).2.drvdata = mach_ptr.mach ∧
      ∃ post, (oc_i2s_card_probe K env pdev).2.trace =
          trace_to_register K env pdev.of_node c p q ++ post ∧
        (post = [Event.dev_info "opencores-i2s machine registered\n"] ∨
         post = [Event.dev_err "devm_snd_soc_register_card failed: %d\n" [r],
                 Event.of_node_put (some q), Event.of_node_put (some p),
                 Event.of_node_put (some c)]) := by
  rcases probe_cases K env pdev with ⟨ha, hw⟩ | ⟨ha, hc, hw⟩ | ⟨c, ha, hc, hp, hw⟩ |
    ⟨c, p, ha, hc, hp, hq, hw⟩ | ⟨c, p, q, ha, hc, hp, hq, hr, hw⟩ |
    ⟨c, p, q, ha, hc, hp, hq, hr, hw⟩
  · rw [hw] at h
    simp at h
  · rw [hw] at h
    simp at h
  · rw [hw] at h
    simp at h
  · rw [hw] at h
    simp at h
  · rw [hw] at h
    simp [trace_to_register] at h
    obtain ⟨h1, h2, h3⟩ := h
    subst h1 h2 h3
    refine ⟨c, p, q, ha, hc, hp, hq, rfl, rfl, rfl, ?_, ?_, ?_⟩
    · rw [hw]
    · rw [hw]
    · rw [hw]
      exact ⟨_, rfl, Or.inr rfl⟩
  · rw [hw] at h
    simp [trace_to_register] at h
    obtain ⟨h1, h2, h3⟩ := h
    subst h1 h2 h3
    refine ⟨c, p, q, ha, hc, hp, hq, rfl, rfl, rfl, ?_, ?_, ?_⟩
    · rw [hw]
    · rw [hw]
    · rw [hw]
      exact ⟨_, rfl, Or.inl rfl⟩


/-! ## Claims -/

/-- C1. Failure-path reference balance of `oc_i2s_card_probe`: on every run that
returns a non-zero value, the `of_node_put` calls made before probe returns are
exactly the nodes acquired in that run, each reference once (in reverse order of
acquisition), so for every node the number of releases equals the number of
acquisitions; `of_node_put` is never called on NULL or on a node that was not
acquired; and when the allocation fails or `cpu-dai` is missing nothing is acquired
and nothing is released. -/
theorem probe_failure_reference_balance (K : kernel_headers) (env : Env)
    (pdev : platform_device) (hret : (oc_i2s_card_probe K env pdev).1 ≠ 0) :
    puts (oc_i2s_card_probe K env pdev).2.trace =
      ((gets (oc_i2s_card_probe K env pdev).2.trace).reverse.map some) ∧
    (∀ n, released n (oc_i2s_card_probe K env pdev).2.trace =
      acquired n (oc_i2s_card_probe K env pdev).2.trace) ∧
    (∀ x ∈ puts (oc_i2s_card_probe K env pdev).2.trace,
      ∃ n, x = some n ∧ 0 < acquired n (oc_i2s_card_probe K env pdev).2.trace) ∧
    ((env.devm_kzalloc = false ∨ env.of_parse_phandle pdev.of_node "cpu-dai" 0 = none) →
      gets (oc_i2s_card_probe K env pdev).2.trace = [] ∧
      puts (oc_i2s_card_probe K env pdev).2.trace = []) := by
  rcases probe_cases K env pdev with ⟨ha, h⟩ | ⟨ha, hc, h⟩ | ⟨c, ha, hc, hp, h⟩ |
    ⟨c, p, ha, hc, hp, hq, h⟩ | ⟨c, p, q, ha, hc, hp, hq, hr, h⟩ |
    ⟨c, p, q, ha, hc, hp, hq, hr, h⟩
  · rw [h]
    simp [puts, gets, released, acquired, List.countP_cons, Event.releases, Event.acquires]
  · rw [h]
    simp [puts, gets, released, acquired, List.countP_cons, Event.releases, Event.acquires]
  · rw [h]
    simp [puts, gets, released, acquired, List.countP_cons, Event.releases, Event.acquires,
      ha, hc]
  · rw [h]
    simp [puts, gets, released, acquired, List.countP_cons, Event.releases, Event.acquires,
      ha, hc]
    intro n
    omega
  · rw [h]
    simp [puts, gets, released, acquired, List.countP_cons, Event.releases, Event.acquires,
      ha, hc, trace_to_register]
    intro n
    omega
  · rw [h] at hret
    exact absurd rfl hret

/-- Witness for C1: registration fails with -22 after the three lookups found nodes
1, 2, 3; the releases are 3, 2, 1. -/
theorem probe_failure_reference_balance_witness :
    (oc_i2s_card_probe linux_headers env_register_fails sample_pdev).1 ≠ 0 ∧
    puts (oc_i2s_card_probe linux_headers env_register_fails sample_pdev).2.trace =
      ((gets (oc_i2s_card_probe linux_headers env_register_fails
        sample_pdev).2.trace).reverse.map some) :=
  ⟨by decide,
   (probe_failure_reference_balance linux_headers env_register_fails sample_pdev
      (by decide)).1⟩

/-- C2. Lifecycle balance on the success path: when `oc_i2s_card_probe` returns 0,
probe made no `of_node_put` call, it acquired exactly the three nodes found for
`cpu-dai`, `playback-codec` and `capture-codec`, a following `oc_i2s_card_remove`
adds exactly one `of_node_put` on each of the three, and after probe-then-remove the
number of releases of every node equals the number of its acquisitions. -/
theorem probe_success_remove_balance (K : kernel_headers) (env : Env)
    (pdev : platform_device) (hret : (oc_i2s_card_probe K env pdev).1 = 0) :
    puts (oc_i2s_card_probe K env pdev).2.trace = [] ∧
    (∃ c p q,
      env.of_parse_phandle pdev.of_node "cpu-dai" 0 = some c ∧
      env.of_parse_phandle pdev.of_node "playback-codec" 0 = some p ∧
      env.of_parse_phandle pdev.of_node "capture-codec" 0 = some q ∧
      gets (oc_i2s_card_probe K env pdev).2.trace = [c, p, q] ∧
      (oc_i2s_card_remove (oc_i2s_card_probe K env pdev).2).trace =
        (oc_i2s_card_probe K env pdev).2.trace ++
          [Event.of_node_put (some c), Event.of_node_put (some p),
           Event.of_node_put (some q)]) ∧
    (∀ n, released n (oc_i2s_card_remove (oc_i2s_card_probe K env pdev).2).trace =
      acquired n (oc_i2s_card_remove (oc_i2s_card_probe K env pdev).2).trace) := by
  have hE := errno_ne_zero K.ENOMEM
  have hD := errno_ne_zero K.EPROBE_DEFER
  rcases probe_cases K env pdev with ⟨ha, h⟩ | ⟨ha, hc, h⟩ | ⟨c, ha, hc, hp, h⟩ |
    ⟨c, p, ha, hc, hp, hq, h⟩ | ⟨c, p, q, ha, hc, hp, hq, hr, h⟩ |
    ⟨c, p, q, ha, hc, hp, hq, hr, h⟩
  · rw [h] at hret
    exact absurd hret hE
  · rw [h] at hret
    exact absurd hret hD
  · rw [h] at hret
    exact absurd hret hD
  · rw [h] at hret
    exact absurd hret hD
  · rw [h] at hret
    exact absurd hret hr
  · rw [h]
    refine ⟨?_, ⟨c, p, q, hc, hp, hq, ?_, ?_⟩, ?_⟩
    · simp [puts, trace_to_register]
    · simp [gets, trace_to_register]
    · simp [oc_i2s_card_remove, platform_get_drvdata, built_mach_eq]
    · intro n
      simp [oc_i2s_card_remove, platform_get_drvdata, built_mach_eq, released, acquired,
        List.countP_cons, Event.releases, Event.acquires, trace_to_register]

/-- Witness for C2: everything succeeds on the documented device tree. -/
theorem probe_success_remove_balance_witness :
    (oc_i2s_card_probe linux_headers env_ok sample_pdev).1 = 0 ∧
    puts (oc_i2s_card_probe linux_headers env_ok sample_pdev).2.trace = [] :=
  ⟨by decide, (probe_success_remove_balance linux_headers env_ok sample_pdev (by decide)).1⟩

/-- C3, counterexample. Registration fails with -22 after the lookups found nodes
1, 2, 3: probe returns -22 having released all three, the driver data still points
at the machine record, and `oc_i2s_card_remove` on that state releases them again.
Node 1 is acquired once and released twice. -/
theorem remove_after_failed_register_releases_twice :
    (oc_i2s_card_probe linux_headers env_register_fails sample_pdev).1 = -22 ∧
    (oc_i2s_card_probe linux_headers env_register_fails sample_pdev).2.drvdata =
      mach_ptr.mach ∧
    acquired 1 (oc_i2s_card_remove
      (oc_i2s_card_probe linux_headers env_register_fails sample_pdev).2).trace = 1 ∧
    released 1 (oc_i2s_card_remove
      (oc_i2s_card_probe linux_headers env_register_fails sample_pdev).2).trace = 2 ∧
    ¬ (released 1 (oc_i2s_card_remove
        (oc_i2s_card_probe linux_headers env_register_fails sample_pdev).2).trace ≤
       acquired 1 (oc_i2s_card_remove
        (oc_i2s_card_probe linux_headers env_register_fails sample_pdev).2).trace) := by
  decide

/-- C3, amended. When `oc_i2s_card_probe` returned 0, or returned with the driver
data still NULL (it failed before `platform_set_drvdata`), running
`oc_i2s_card_remove` on the state probe left behind releases no node more often than
it was acquired, and the releases are made either by probe or by remove, never by
both. -/
theorem remove_never_over_releases (K : kernel_headers) (env : Env) (pdev : platform_device)
    (h : (oc_i2s_card_probe K env pdev).1 = 0 ∨
      (oc_i2s_card_probe K env pdev).2.drvdata = mach_ptr.NULL) :
    (∀ n, released n (oc_i2s_card_remove (oc_i2s_card_probe K env pdev).2).trace ≤
      acquired n (oc_i2s_card_remove (oc_i2s_card_probe K env pdev).2).trace) ∧
    (puts (oc_i2s_card_probe K env pdev).2.trace = [] ∨
      oc_i2s_card_remove (oc_i2s_card_probe K env pdev).2 =
        (oc_i2s_card_probe K env pdev).2) := by
  rcases probe_cases K env pdev with ⟨ha, hp⟩ | ⟨ha, hc, hp⟩ | ⟨c, ha, hc, hp, hp⟩ |
    ⟨c, p, ha, hc, hp, hq, hp⟩ | ⟨c, p, q, ha, hc, hp, hq, hr, hp⟩ |
    ⟨c, p, q, ha, hc, hp, hq, hr, hp⟩
  · rw [hp]
    simp [oc_i2s_card_remove, platform_get_drvdata, released, acquired, List.countP_cons,
      Event.releases, Event.acquires]
  · rw [hp]
    simp [oc_i2s_card_remove, platform_get_drvdata, released, acquired, List.countP_cons,
      Event.releases, Event.acquires]
  · rw [hp]
    simp [oc_i2s_card_remove, platform_get_drvdata, released, acquired, List.countP_cons,
      Event.releases, Event.acquires]
  · rw [hp]
    simp [oc_i2s_card_remove, platform_get_drvdata, released, acquired, List.countP_cons,
      Event.releases, Event.acquires]
    intro n
    omega
  · rw [hp] at h
    rcases h with h | h
    · exact absurd h hr
    · simp at h
  · rw [hp]
    simp [oc_i2s_card_remove, platform_get_drvdata, built_mach_eq, released, acquired,
      List.countP_cons, Event.releases, Event.acquires, trace_to_register, puts]

/-- Witness for the amended C3: the capture codec is missing, so probe fails with the
driver data still NULL. -/
theorem remove_never_over_releases_witness :
    ((oc_i2s_card_probe linux_headers env_no_capture sample_pdev).1 = 0 ∨
      (oc_i2s_card_probe linux_headers env_no_capture sample_pdev).2.drvdata =
        mach_ptr.NULL) ∧
    (∀ n, released n (oc_i2s_card_remove
        (oc_i2s_card_probe linux_headers env_no_capture sample_pdev).2).trace ≤
      acquired n (oc_i2s_card_remove
        (oc_i2s_card_probe linux_headers env_no_capture sample_pdev).2).trace) :=
  ⟨Or.inr (by decide),
   (remove_never_over_releases linux_headers env_no_capture sample_pdev
      (Or.inr (by decide))).1⟩

/-- C4. Return code of `oc_i2s_card_probe`, for every outcome of the kernel services:
-ENOMEM when the allocation fails; otherwise -EPROBE_DEFER when `cpu-dai`, else
`playback-codec`, else `capture-codec` does not resolve (the first missing one is the
one reported); otherwise the value returned by the one call of
`devm_snd_soc_register_card`.  Probe returns 0 exactly when the allocation succeeds,
the three phandles resolve and registration returns 0. -/
theorem probe_return_code (K : kernel_headers) (env : Env) (pdev : platform_device) :
    (env.devm_kzalloc = false →
      (oc_i2s_card_probe K env pdev).1 = -((K.ENOMEM : Nat) : Int)) ∧
    (env.devm_kzalloc = true → env.of_parse_phandle pdev.of_node "cpu-dai" 0 = none →
      (oc_i2s_card_probe K env pdev).1 = -((K.EPROBE_DEFER : Nat) : Int) ∧
      Event.dev_err "Missing cpu-dai phandle\n" [] ∈ (oc_i2s_card_probe K env pdev).2.trace) ∧
    (env.devm_kzalloc = true → env.of_parse_phandle pdev.of_node "cpu-dai" 0 ≠ none →
      env.of_parse_phandle pdev.of_node "playback-codec" 0 = none →
      (oc_i2s_card_probe K env pdev).1 = -((K.EPROBE_DEFER : Nat) : Int) ∧
      Event.dev_err "Missing playback-codec phandle\n" [] ∈
        (oc_i2s_card_probe K env pdev).2.trace) ∧
    (env.devm_kzalloc = true → env.of_parse_phandle pdev.of_node "cpu-dai" 0 ≠ none →
      env.of_parse_phandle pdev.of_node "playback-codec" 0 ≠ none →
      env.of_parse_phandle pdev.of_node "capture-codec" 0 = none →
      (oc_i2s_card_probe K env pdev).1 = -((K.EPROBE_DEFER : Nat) : Int) ∧
      Event.dev_err "Missing capture-codec phandle\n" [] ∈
        (oc_i2s_card_probe K env pdev).2.trace) ∧
    (env.devm_kzalloc = true → env.of_parse_phandle pdev.of_node "cpu-dai" 0 ≠ none →
      env.of_parse_phandle pdev.of_node "playback-codec" 0 ≠ none →
      env.of_parse_phandle pdev.of_node "capture-codec" 0 ≠ none →
      ∃ m, (oc_i2s_card_probe K env pdev).2.trace.filter Event.is_register =
          [Event.devm_snd_soc_register_card mach_ptr.mach m
            (env.devm_snd_soc_register_card m)] ∧
        (oc_i2s_card_probe K env pdev).1 = env.devm_snd_soc_register_card m) ∧
    ((oc_i2s_card_probe K env pdev).1 = 0 ↔
      env.devm_kzalloc = true ∧
      env.of_parse_phandle pdev.of_node "cpu-dai" 0 ≠ none ∧
      env.of_parse_phandle pdev.of_node "playback-codec" 0 ≠ none ∧
      env.of_parse_phandle pdev.of_node "capture-codec" 0 ≠ none ∧
      ∃ m, Event.devm_snd_soc_register_card mach_ptr.mach m 0 ∈
        (oc_i2s_card_probe K env pdev).2.trace) := by
  have hE := errno_ne_zero K.ENOMEM
  have hD := errno_ne_zero K.EPROBE_DEFER
  rcases probe_cases K env pdev with ⟨ha, h⟩ | ⟨ha, hc, h⟩ | ⟨c, ha, hc, hp, h⟩ |
    ⟨c, p, ha, hc, hp, hq, h⟩ | ⟨c, p, q, ha, hc, hp, hq, hr, h⟩ |
    ⟨c, p, q, ha, hc, hp, hq, hr, h⟩
  · rw [h]
    simp [ha, hE]
  · rw [h]
    simp [ha, hc, hD]
  · rw [h]
    simp [ha, hc, hp, hD]
  · rw [h]
    simp [ha, hc, hp, hq, hD]
  · rw [h]
    simp [ha, hc, hp, hq, hr, trace_to_register, Event.is_register]
    exact fun h0 => hr h0.symm
  · rw [h]
    simp [ha, hc, hp, hq, hr, trace_to_register, Event.is_register]

/-- C5. Link-to-node binding: whenever `oc_i2s_card_probe` calls
`devm_snd_soc_register_card` on record `m`, link 0 is "I2S-Playback" (stream
"Playback", id 0) and its single codec is the node found for `playback-codec` with
DAI name "HiFi"; link 1 is "I2S-Capture" (stream "Capture", id 1) and its single
codec is the node found for `capture-codec` with DAI name "ics43432-hifi"; the
single CPU of both links is the node found for `cpu-dai` with DAI name
"opencores-i2s"; all three nodes are non-NULL and the codecs are not swapped. -/
theorem links_bind_resolved_nodes (K : kernel_headers) (env : Env) (pdev : platform_device)
    (dd : mach_ptr) (m : oc_i2s_mach) (r : Int)
    (h : Event.devm_snd_soc_register_card dd m r ∈ (oc_i2s_card_probe K env pdev).2.trace) :
    ∃ l0 l1, m.dai_links = [l0, l1] ∧
      l0.name = some "I2S-Playback" ∧ l0.stream_name = some "Playback" ∧ l0.id = 0 ∧
      l0.num_codecs = 1 ∧ l0.codecs = component_ptr.codec_playback ∧
      m.component l0.codecs =
        some { of_node := env.of_parse_phandle pdev.of_node "playback-codec" 0,
               dai_name := some "HiFi" } ∧
      l1.name = some "I2S-Capture" ∧ l1.stream_name = some "Capture" ∧ l1.id = 1 ∧
      l1.num_codecs = 1 ∧ l1.codecs = component_ptr.codec_capture ∧
      m.component l1.codecs =
        some { of_node := env.of_parse_phandle pdev.of_node "capture-codec" 0,
               dai_name := some "ics43432-hifi" } ∧
      l0.num_cpus = 1 ∧ l1.num_cpus = 1 ∧
      m.component l0.cpus =
        some { of_node := env.of_parse_phandle pdev.of_node "cpu-dai" 0,
               dai_name := some "opencores-i2s" } ∧
      m.component l1.cpus =
        some { of_node := env.of_parse_phandle pdev.of_node "cpu-dai" 0,
               dai_name := some "opencores-i2s" } ∧
      env.of_parse_phandle pdev.of_node "cpu-dai" 0 ≠ none ∧
      env.of_parse_phandle pdev.of_node "playback-codec" 0 ≠ none ∧
      env.of_parse_phandle pdev.of_node "capture-codec" 0 ≠ none := by
  obtain ⟨c, p, q, _, hc, hp, hq, _, hm, _⟩ := probe_register_event K env pdev dd m r h
  subst hm
  rw [built_mach_eq]
  refine ⟨_, _, rfl, ?_⟩
  simp [oc_i2s_mach.component, hc, hp, hq]

/-- Witness for C5: the documented device tree, everything succeeding. -/
theorem links_bind_resolved_nodes_witness :
    Event.devm_snd_soc_register_card mach_ptr.mach
        (built_mach linux_headers env_ok sample_pdev.of_node 1 2 3) 0 ∈
      (oc_i2s_card_probe linux_headers env_ok sample_pdev).2.trace ∧
    ∃ l0 l1, (built_mach linux_headers env_ok sample_pdev.of_node 1 2 3).dai_links = [l0, l1] ∧
      l0.codecs = component_ptr.codec_playback ∧ l1.codecs = component_ptr.codec_capture :=
  ⟨by decide,
   by
    obtain ⟨l0, l1, h, _, _, _, _, h0, _, _, _, _, _, h1, _⟩ :=
      links_bind_resolved_nodes linux_headers env_ok sample_pdev mach_ptr.mach
        (built_mach linux_headers env_ok sample_pdev.of_node 1 2 3) 0 (by decide)
    exact ⟨l0, l1, h, h0, h1⟩⟩

/-- C6. Direction flags: whenever `oc_i2s_card_probe` calls
`devm_snd_soc_register_card` on record `m`, the card has `num_links = 2` and
`dai_link` points at the record's own two-element `dai_links` array; link 0 is
playback-only and not capture-only, link 1 is capture-only and not playback-only; on
each link exactly one flag is set and the two links have opposite directions. -/
theorem links_direction_flags (K : kernel_headers) (env : Env) (pdev : platform_device)
    (dd : mach_ptr) (m : oc_i2s_mach) (r : Int)
    (h : Event.devm_snd_soc_register_card dd m r ∈ (oc_i2s_card_probe K env pdev).2.trace) :
    m.card.num_links = 2 ∧ m.card.dai_link = dai_link_ptr.dai_links ∧
    m.links m.card.dai_link = m.dai_links ∧
    (m.links m.card.dai_link).length = m.card.num_links ∧
    ∃ l0 l1, m.dai_links = [l0, l1] ∧
      l0.playback_only = true ∧ l0.capture_only = false ∧
      l1.playback_only = false ∧ l1.capture_only = true ∧
      (∀ l ∈ m.dai_links, l.playback_only ≠ l.capture_only) ∧
      l0.playback_only ≠ l1.playback_only ∧ l0.capture_only ≠ l1.capture_only := by
  obtain ⟨c, p, q, _, _, _, _, _, hm, _⟩ := probe_register_event K env pdev dd m r h
  subst hm
  rw [built_mach_eq]
  refine ⟨rfl, rfl, rfl, rfl, _, _, rfl, ?_⟩
  simp

/-- Witness for C6: the documented device tree, everything succeeding. -/
theorem links_direction_flags_witness :
    Event.devm_snd_soc_register_card mach_ptr.mach
        (built_mach linux_headers env_ok sample_pdev.of_node 1 2 3) 0 ∈
      (oc_i2s_card_probe linux_headers env_ok sample_pdev).2.trace ∧
    (built_mach linux_headers env_ok sample_pdev.of_node 1 2 3).card.num_links = 2 :=
  ⟨by decide,
   (links_direction_flags linux_headers env_ok sample_pdev mach_ptr.mach
      (built_mach linux_headers env_ok sample_pdev.of_node 1 2 3) 0 (by decide)).1⟩

/-- C7. Platform reuse and format equality: whenever `oc_i2s_card_probe` calls
`devm_snd_soc_register_card` on record `m`, both links point at the one platform
component `m.platform`, whose node is the CPU node found for `cpu-dai`; both links
carry the format word I2S | NB_NF | CBC_CFC and have
`num_cpus = num_codecs = num_platforms = 1`.  The run acquired exactly three
references (cpu, playback codec, capture codec; none for the platform), the probe
error path releases at most those three, and remove releases exactly those three. -/
theorem platform_reuse_and_format (K : kernel_headers) (env : Env) (pdev : platform_device)
    (dd : mach_ptr) (m : oc_i2s_mach) (r : Int)
    (h : Event.devm_snd_soc_register_card dd m r ∈ (oc_i2s_card_probe K env pdev).2.trace) :
    (∃ l0 l1, m.dai_links = [l0, l1] ∧
      l0.platforms = component_ptr.platform ∧ l1.platforms = l0.platforms ∧
      m.component l0.platforms = some m.platform ∧
      m.platform.of_node = m.cpu.of_node ∧
      m.platform.of_node = env.of_parse_phandle pdev.of_node "cpu-dai" 0 ∧
      l0.dai_fmt = K.SND_SOC_DAIFMT_I2S ||| K.SND_SOC_DAIFMT_NB_NF |||
        K.SND_SOC_DAIFMT_CBC_CFC ∧
      l1.dai_fmt = l0.dai_fmt ∧
      l0.num_cpus = 1 ∧ l0.num_codecs = 1 ∧ l0.num_platforms = 1 ∧
      l1.num_cpus = 1 ∧ l1.num_codecs = 1 ∧ l1.num_platforms = 1) ∧
    (∃ c p q,
      env.of_parse_phandle pdev.of_node "cpu-dai" 0 = some c ∧
      env.of_parse_phandle pdev.of_node "playback-codec" 0 = some p ∧
      env.of_parse_phandle pdev.of_node "capture-codec" 0 = some q ∧
      gets (oc_i2s_card_probe K env pdev).2.trace = [c, p, q] ∧
      (puts (oc_i2s_card_probe K env pdev).2.trace = [] ∨
       puts (oc_i2s_card_probe K env pdev).2.trace = [some q, some p, some c]) ∧
      puts (oc_i2s_card_remove (oc_i2s_card_probe K env pdev).2).trace =
        puts (oc_i2s_card_probe K env pdev).2.trace ++ [some c, some p, some q]) := by
  obtain ⟨c, p, q, _, hc, hp, hq, _, hm, _, hmach, hdrv, post, ht, hpost⟩ :=
    probe_register_event K env pdev dd m r h
  subst hm
  constructor
  · rw [built_mach_eq]
    refine ⟨_, _, rfl, ?_⟩
    simp [oc_i2s_mach.component, hc]
  · refine ⟨c, p, q, hc, hp, hq, ?_, ?_, ?_⟩
    · rw [ht]
      rcases hpost with hpost | hpost <;> simp [hpost, gets, trace_to_register]
    · rw [ht]
      rcases hpost with hpost | hpost <;> simp [hpost, puts, trace_to_register]
    · simp [oc_i2s_card_remove, platform_get_drvdata, hmach, hdrv, puts, built_mach_eq]

/-- Witness for C7: the documented device tree, everything succeeding. -/
theorem platform_reuse_and_format_witness :
    Event.devm_snd_soc_register_card mach_ptr.mach
        (built_mach linux_headers env_ok sample_pdev.of_node 1 2 3) 0 ∈
      (oc_i2s_card_probe linux_headers env_ok sample_pdev).2.trace ∧
    ∃ l0 l1, (built_mach linux_headers env_ok sample_pdev.of_node 1 2 3).dai_links = [l0, l1] ∧
      l0.platforms = component_ptr.platform ∧ l1.platforms = l0.platforms :=
  ⟨by decide,
   by
    obtain ⟨⟨l0, l1, h, h0, h1, _⟩, _⟩ :=
      platform_reuse_and_format linux_headers env_ok sample_pdev mach_ptr.mach
        (built_mach linux_headers env_ok sample_pdev.of_node 1 2 3) 0 (by decide)
    exact ⟨l0, l1, h, h0, h1⟩⟩

/-- C8. Card name selection: when the allocation succeeds, the record probe leaves
has `card.dev` equal to the probed device; its `card.name` is the string
`of_property_read_string(np, "model", ..)` stored when that call returned 0, and is
"opencores-i2s-card" when the call returned any non-zero value. -/
theorem card_name_selection (K : kernel_headers) (env : Env) (pdev : platform_device)
    (ha : env.devm_kzalloc = true) :
    ∃ m, (oc_i2s_card_probe K env pdev).2.mach = some m ∧
      m.card.dev = device_ptr.pdev_dev ∧ m.dev = device_ptr.pdev_dev ∧
      ((env.of_property_read_string pdev.of_node "model").1 = 0 →
        m.card.name = (env.of_property_read_string pdev.of_node "model").2) ∧
      ((env.of_property_read_string pdev.of_node "model").1 ≠ 0 →
        m.card.name = some "opencores-i2s-card") := by
  rcases probe_cases K env pdev with ⟨ha2, h⟩ | ⟨_, hc, h⟩ | ⟨c, _, hc, hp, h⟩ |
    ⟨c, p, _, hc, hp, hq, h⟩ | ⟨c, p, q, _, hc, hp, hq, hr, h⟩ |
    ⟨c, p, q, _, hc, hp, hq, hr, h⟩
  · rw [ha] at ha2
    exact absurd ha2 (by decide)
  · rw [h]
    refine ⟨_, rfl, ?_⟩
    simp +contextual [card_setup_eq]
  · rw [h]
    refine ⟨_, rfl, ?_⟩
    simp +contextual [card_setup_eq]
  · rw [h]
    refine ⟨_, rfl, ?_⟩
    simp +contextual [card_setup_eq]
  · rw [h]
    refine ⟨_, rfl, ?_⟩
    simp +contextual [built_mach_eq]
  · rw [h]
    refine ⟨_, rfl, ?_⟩
    simp +contextual [built_mach_eq]

/-- Witness for C8: no `model` property (the read returns -22), so the default name
is used. -/
theorem card_name_selection_witness :
    env_ok.devm_kzalloc = true ∧
    ∃ m, (oc_i2s_card_probe linux_headers env_ok sample_pdev).2.mach = some m ∧
      m.card.dev = device_ptr.pdev_dev ∧ m.card.name = some "opencores-i2s-card" :=
  ⟨rfl,
   by
    obtain ⟨m, h, h0, _, _, h1⟩ := card_name_selection linux_headers env_ok sample_pdev rfl
    exact ⟨m, h, h0, h1 (by decide)⟩⟩

/-- C9. The function `oc_i2s_card_remove`: with NULL driver data it changes nothing
and calls nothing; with driver data pointing at record `m` it appends exactly three
calls, `of_node_put` on `m.cpu.of_node`, `m.codec_playback.of_node` and
`m.codec_capture.of_node`; in both cases the machine record (card and link
descriptors included) and the driver-data slot are unchanged. -/
theorem remove_effects (w : World) :
    (w.drvdata = mach_ptr.NULL → platform_get_drvdata w = none) ∧
    (w.drvdata = mach_ptr.mach → platform_get_drvdata w = w.mach) ∧
    (platform_get_drvdata w = none → oc_i2s_card_remove w = w) ∧
    (∀ m, platform_get_drvdata w = some m →
      (oc_i2s_card_remove w).trace = w.trace ++
        [Event.of_node_put m.cpu.of_node, Event.of_node_put m.codec_playback.of_node,
         Event.of_node_put m.codec_capture.of_node] ∧
      puts (oc_i2s_card_remove w).trace = puts w.trace ++
        [m.cpu.of_node, m.codec_playback.of_node, m.codec_capture.of_node]) ∧
    (oc_i2s_card_remove w).mach = w.mach ∧
    (oc_i2s_card_remove w).drvdata = w.drvdata := by
  refine ⟨?_, ?_, ?_, ?_, ?_, ?_⟩
  · intro h
    simp [platform_get_drvdata, h]
  · intro h
    simp [platform_get_drvdata, h]
  · intro h
    simp [oc_i2s_card_remove, h]
  · intro m h
    simp [oc_i2s_card_remove, h, puts]
  · cases h : platform_get_drvdata w <;> simp [oc_i2s_card_remove, h]
  · cases h : platform_get_drvdata w <;> simp [oc_i2s_card_remove, h]

/-- C10. Registration guard: in every run of `oc_i2s_card_probe`,
`devm_snd_soc_register_card` is called at most once; a call is made only after a
successful allocation, on a record whose cpu, playback-codec and capture-codec nodes
are non-NULL and whose two link descriptors are fully populated, with the driver
data set to the machine record by the `platform_set_drvdata` call just before it;
and when the allocation fails or a phandle is missing, registration is never called
and the driver data is never set. -/
theorem registration_guard (K : kernel_headers) (env : Env) (pdev : platform_device) :
    (oc_i2s_card_probe K env pdev).2.trace.countP Event.is_register ≤ 1 ∧
    (∀ dd m r,
      Event.devm_snd_soc_register_card dd m r ∈ (oc_i2s_card_probe K env pdev).2.trace →
      env.devm_kzalloc = true ∧ (oc_i2s_card_probe K env pdev).2.mach = some m ∧
      m.cpu.of_node ≠ none ∧ m.codec_playback.of_node ≠ none ∧
      m.codec_capture.of_node ≠ none ∧
      (∃ l0 l1, m.dai_links = [l0, l1] ∧
        link_populated m l0 = true ∧ link_populated m l1 = true) ∧
      dd = mach_ptr.mach ∧
      ∃ pre post, (oc_i2s_card_probe K env pdev).2.trace =
          pre ++ [Event.platform_set_drvdata mach_ptr.mach,
                  Event.devm_snd_soc_register_card dd m r] ++ post ∧
        pre.countP Event.is_register = 0 ∧ post.countP Event.is_register = 0) ∧
    ((env.devm_kzalloc = false ∨
      env.of_parse_phandle pdev.of_node "cpu-dai" 0 = none ∨
      env.of_parse_phandle pdev.of_node "playback-codec" 0 = none ∨
      env.of_parse_phandle pdev.of_node "capture-codec" 0 = none) →
      (oc_i2s_card_probe K env pdev).2.trace.countP Event.is_register = 0 ∧
      (oc_i2s_card_probe K env pdev).2.trace.countP Event.is_set_drvdata = 0 ∧
      (oc_i2s_card_probe K env pdev).2.drvdata = mach_ptr.NULL) := by
  refine ⟨?_, ?_, ?_⟩
  · rcases probe_cases K env pdev with ⟨ha, h⟩ | ⟨ha, hc, h⟩ | ⟨c, ha, hc, hp, h⟩ |
      ⟨c, p, ha, hc, hp, hq, h⟩ | ⟨c, p, q, ha, hc, hp, hq, hr, h⟩ |
      ⟨c, p, q, ha, hc, hp, hq, hr, h⟩ <;>
    · rw [h]
      simp [List.countP_cons, Event.is_register, trace_to_register]
  · intro dd m r h
    obtain ⟨c, p, q, ha, _, _, _, hdd, hm, hr, hmach, _, post, ht, hpost⟩ :=
      probe_register_event K env pdev dd m r h
    subst hm hdd
    refine ⟨ha, hmach, ?_, ?_, ?_, ?_, rfl, ?_⟩
    · simp [built_mach_eq]
    · simp [built_mach_eq]
    · simp [built_mach_eq]
    · rw [built_mach_eq]
      refine ⟨_, _, rfl, ?_⟩
      simp [link_populated, component_set, oc_i2s_mach.component]
    · refine ⟨[Event.devm_kzalloc true,
          Event.of_property_read_string pdev.of_node "model"
            (env.of_property_read_string pdev.of_node "model").1,
          Event.of_parse_phandle pdev.of_node "cpu-dai" 0 (some c),
          Event.of_parse_phandle pdev.of_node "playback-codec" 0 (some p),
          Event.of_parse_phandle pdev.of_node "capture-codec" 0 (some q)], post, ?_, ?_, ?_⟩
      · rw [ht, hr]
        simp [trace_to_register]
      · simp [List.countP_cons, Event.is_register]
      · rcases hpost with hpost | hpost <;>
          simp [hpost, List.countP_cons, Event.is_register]
  · intro hfail
    rcases probe_cases K env pdev with ⟨ha, h⟩ | ⟨ha, hc, h⟩ | ⟨c, ha, hc, hp, h⟩ |
      ⟨c, p, ha, hc, hp, hq, h⟩ | ⟨c, p, q, ha, hc, hp, hq, hr, h⟩ |
      ⟨c, p, q, ha, hc, hp, hq, hr, h⟩
    · rw [h]
      simp [List.countP_cons, Event.is_register, Event.is_set_drvdata]
    · rw [h]
      simp [List.countP_cons, Event.is_register, Event.is_set_drvdata]
    · rw [h]
      simp [List.countP_cons, Event.is_register, Event.is_set_drvdata]
    · rw [h]
      simp [List.countP_cons, Event.is_register, Event.is_set_drvdata]
    · simp [ha, hc, hp, hq] at hfail
    · simp [ha, hc, hp, hq] at hfail

end I2sMicAmp
